import Mathlib

/-!
Verification of the SimpleTuner validation orchestrator and the flux
transformer forward pass, shallowly embedded from
`helpers/training/validation.py` and `helpers/models/flux/transformer.py`.

Python values that can be either `int` or `str` are modelled by `PyVal`;
Python exceptions are modelled with `Except String`; tensors are modelled
by their shapes and by row lists where element values matter.  String
operations are implemented structurally over `List Char` so that every
definition evaluates inside the kernel.
-/

deriving instance DecidableEq for Except

/-- A Python value that is either an `int` or a `str`, as accepted by
`parse_validation_resolution` (validation.py:359). -/
inductive PyVal where
  | int (n : Int)
  | str (s : String)
deriving DecidableEq, Repr

/-- Python `str.isdigit()`: true when the string is non-empty and all its
characters are digits. -/
def pyIsDigit (s : String) : Bool :=
  !s.isEmpty && s.toList.all Char.isDigit

/-- Substring search over character lists: `containsChars haystack needle`
is Python `needle in haystack`. -/
def containsChars : List Char → List Char → Bool
  | _, [] => true
  | [], _ :: _ => false
  | c :: rest, needle => needle.isPrefixOf (c :: rest) || containsChars rest needle

/-- Python `needle in haystack` substring test on strings. -/
def strContains (haystack needle : String) : Bool :=
  containsChars haystack.toList needle.toList

/-- Python `str.split(sep)` for a one-character separator (the source only
splits on `","` and `"x"`). -/
def splitOnChar (sep : Char) : List Char → List (List Char)
  | [] => [[]]
  | c :: rest =>
    if c == sep then [] :: splitOnChar sep rest
    else
      match splitOnChar sep rest with
      | [] => [[c]]
      | r :: rs => (c :: r) :: rs

/-- Numeric value of a digit string. -/
def digitsToNat (l : List Char) : Nat :=
  l.foldl (fun acc c => 10 * acc + (c.toNat - 48)) 0

/-- Python `int(s)` on a character list: conversion to an integer, raising
`ValueError` on non-numeric input (signs and surrounding whitespace, which
the source never feeds to `int`, are not modelled). -/
def pyCharsToInt (l : List Char) : Except String Int :=
  if !l.isEmpty && l.all Char.isDigit then Except.ok (Int.ofNat (digitsToNat l))
  else Except.error "ValueError: invalid literal for int"

/-- Python `int(s)` on a string. -/
def pyStrToInt (s : String) : Except String Int :=
  pyCharsToInt s.toList

/-- Python `int(v)` on a `PyVal`. -/
def pyToInt (v : PyVal) : Except String Int :=
  match v with
  | PyVal.int n => Except.ok n
  | PyVal.str s => pyStrToInt s

/-- The test guarding the first branch of `parse_validation_resolution`:
`isinstance(input_str, int) or input_str.isdigit()` (validation.py:369). -/
def pyValIsIntLike (v : PyVal) : Bool :=
  match v with
  | PyVal.int _ => true
  | PyVal.str s => pyIsDigit s

/-- Embeds `parse_validation_resolution` (validation.py:359-381).
`model_type` stands for `StateTracker.get_args().model_type`.  The digit
branch returns the input unchanged as both tuple components; the `WxH`
branch converts both pieces with `int(...)`; any other input falls off the
end of the function and returns Python `None`, modelled as `none`. -/
def parse_validation_resolution (model_type : String) (input_str : PyVal) :
    Except String (Option (PyVal × PyVal)) := do
  let is_df_ii := strContains model_type "deepfloyd-stage2"
  if pyValIsIntLike input_str then
    let n ← pyToInt input_str
    if is_df_ii && n < 256 then
      Except.error "ValueError: Cannot use less than 256 resolution for DeepFloyd stage 2."
    else
      Except.ok (some (input_str, input_str))
  else
    match input_str with
    | PyVal.int _ => Except.ok none
    | PyVal.str s =>
      if strContains s "x" then
        let pieces := splitOnChar 'x' s.toList
        let w ← pyCharsToInt (pieces.getD 0 [])
        let h ← pyCharsToInt (pieces.getD 1 [])
        if is_df_ii && (w < 256 || h < 256) then
          Except.error "ValueError: Cannot use less than 256 resolution for DeepFloyd stage 2."
        else
          Except.ok (some (PyVal.int w, PyVal.int h))
      else
        Except.ok none

/-- Embeds `get_validation_resolutions` (validation.py:340-356): a string
parameter containing a comma is split and parsed piecewise, any other
parameter is parsed as a single resolution. -/
def get_validation_resolutions (model_type : String) (param : PyVal) :
    Except String (List (Option (PyVal × PyVal))) :=
  match param with
  | PyVal.str s =>
    if strContains s "," then
      (splitOnChar ',' s.toList).mapM
        (fun piece => parse_validation_resolution model_type (PyVal.str (String.mk piece)))
    else do
      let r ← parse_validation_resolution model_type param
      Except.ok [r]
  | PyVal.int _ => do
      let r ← parse_validation_resolution model_type param
      Except.ok [r]

/-! ## Flux attention-mask expansion (transformer.py:169-184) -/

/-- Embeds `expand_flux_attention_mask` (transformer.py:169-184).  The
hidden states are represented by their shape `(hidden_bsz,
residual_seq_len)`; the mask by its rows.  The `assert bsz ==
hidden_states.shape[0]` is modelled by returning `none` on mismatch.  The
source allocates `torch.ones(bsz, residual_seq_len)` and overwrites the
first `mask_seq_len` columns with the mask (which requires `mask_seq_len ≤
residual_seq_len` for the tensor assignment to be well formed), so each
output row is the mask row followed by ones. -/
def expand_flux_attention_mask (hidden_bsz residual_seq_len : Nat)
    (attn_mask : List (List Int)) : Option (List (List Int)) :=
  if attn_mask.length = hidden_bsz then
    some (attn_mask.map (fun row => row ++ List.replicate (residual_seq_len - row.length) 1))
  else
    none

/-! ## Gradient-checkpointing dispatch in `FluxTransformer2DModelWithMasking.forward`
(transformer.py:578-662) -/

/-- How the forward pass executes one transformer block. -/
inductive BlockExec where
  | checkpointed
  | plain
deriving DecidableEq, Repr

/-- Dispatch for a dual-stream (`transformer_blocks`) block, embedding the
condition at transformer.py:579-586:
`self.training and self.gradient_checkpointing and
(self.gradient_checkpointing_interval is None or
 index_block % self.gradient_checkpointing_interval == 0)`. -/
def dualStreamBlockExec (training gradient_checkpointing : Bool)
    (gradient_checkpointing_interval : Option Nat) (index_block : Nat) : BlockExec :=
  if training && gradient_checkpointing &&
      (match gradient_checkpointing_interval with
       | none => true
       | some k => decide (index_block % k = 0)) then
    BlockExec.checkpointed
  else
    BlockExec.plain

/-- Dispatch for a merged-stream (`single_transformer_blocks`) block,
embedding the condition at transformer.py:626-633:
`self.training and self.gradient_checkpointing or
(self.gradient_checkpointing_interval is not None and
 index_block % self.gradient_checkpointing_interval == 0)`
(Python `and` binds tighter than `or`). -/
def singleStreamBlockExec (training gradient_checkpointing : Bool)
    (gradient_checkpointing_interval : Option Nat) (index_block : Nat) : BlockExec :=
  if (training && gradient_checkpointing) ||
      (match gradient_checkpointing_interval with
       | none => false
       | some k => decide (index_block % k = 0)) then
    BlockExec.checkpointed
  else
    BlockExec.plain

/-- The per-index execution schedule of the dual-stream loop
(`for index_block, block in enumerate(self.transformer_blocks)`). -/
def forwardDualSchedule (training gradient_checkpointing : Bool)
    (interval : Option Nat) (num_blocks : Nat) : List BlockExec :=
  (List.range num_blocks).map
    (dualStreamBlockExec training gradient_checkpointing interval)

/-- The per-index execution schedule of the merged-stream loop
(`for index_block, block in enumerate(self.single_transformer_blocks)`). -/
def forwardSingleSchedule (training gradient_checkpointing : Bool)
    (interval : Option Nat) (num_blocks : Nat) : List BlockExec :=
  (List.range num_blocks).map
    (singleStreamBlockExec training gradient_checkpointing interval)

/-! ## `Validation.should_perform_validation` (validation.py:965-975) -/

/-- The fields of a `Validation` object read by
`should_perform_validation`, as assigned in `__init__` and
`_update_state`.  `__init__` assigns `self.deepspeed = is_deepspeed`
(validation.py:461); no attribute named `deepseed` is ever assigned. -/
structure ValidationState where
  validation_prompts : List String
  validation_steps : Nat
  gradient_accumulation_steps : Nat
  global_step : Nat
  global_resume_step : Nat
  is_main_process : Bool
  deepspeed : Bool
deriving DecidableEq, Repr

/-- Reading `self.deepseed` (validation.py:974): the attribute was never
assigned, so the lookup raises `AttributeError`. -/
def read_deepseed (_s : ValidationState) : Except String Bool :=
  Except.error "AttributeError: Validation object has no attribute deepseed"

/-- The `should_do_intermediary_validation` conjunction
(validation.py:966-971), with Python truthiness of the prompt list made
explicit. -/
def should_do_intermediary_validation (s : ValidationState) (step : Nat) : Bool :=
  decide (s.validation_prompts ≠ []) &&
  decide (s.global_step % s.validation_steps = 0) &&
  decide (step % s.gradient_accumulation_steps = 0) &&
  decide (s.global_step > s.global_resume_step)

/-- `is_final_validation = validation_type == "final"` (validation.py:972). -/
def is_final_validation (validation_type : String) : Bool :=
  validation_type == "final"

/-- Embeds `should_perform_validation` (validation.py:965-975).  The
returned expression is `(is_final_validation or
should_do_intermediary_validation) and (self.accelerator.is_main_process
or self.deepseed)`; both `or`s and the `and` short-circuit, so
`self.deepseed` is read only when the left conjunct is truthy and the
process is not the main process. -/
def should_perform_validation (s : ValidationState) (step : Nat)
    (validation_type : String) : Except String Bool :=
  if is_final_validation validation_type || should_do_intermediary_validation s step then
    if s.is_main_process then Except.ok true
    else read_deepseed s
  else
    Except.ok false

/-! ## EMA weight swapping (validation.py:1618-1691)

The live trainable parameters, the EMA model's internal store buffer and
the EMA shadow weights are each abstracted as a single `Int` value; the
branches of `enable_ema_for_inference` (lycoris / standard lora /
full-model) all perform the same `store` followed by `copy_to` on the live
trainable parameters, and `disable_ema_for_inference` performs `restore`,
so one transition covers them.  `trace` records the EMA-model calls that
were actually performed, to distinguish a guarded early return from a
repeated swap. -/

/-- A side-effecting call on the EMA model. -/
inductive EmaOp where
  | store
  | copy_to
  | restore
deriving DecidableEq, Repr

/-- State touched by the EMA swap-in/swap-out pair. -/
structure EmaSwapState where
  live : Int
  stored : Int
  ema : Int
  ema_enabled : Bool
  use_ema : Bool
  trace : List EmaOp
deriving DecidableEq, Repr

/-- Embeds `enable_ema_for_inference` (validation.py:1618-1661): an early
return when `self.ema_enabled` is already set (validation.py:1619-1621);
otherwise, when `args.use_ema`, sets `ema_enabled`, calls
`ema_model.store` on the live trainable parameters and then
`ema_model.copy_to`, which overwrites them with the EMA shadow weights. -/
def enable_ema_for_inference (s : EmaSwapState) : EmaSwapState :=
  if s.ema_enabled then s
  else if s.use_ema then
    { s with
      ema_enabled := true
      stored := s.live
      live := s.ema
      trace := s.trace ++ [EmaOp.store, EmaOp.copy_to] }
  else s

/-- Embeds `disable_ema_for_inference` (validation.py:1663-1691): an early
return when `self.ema_enabled` is not set (validation.py:1664-1666);
otherwise, when `args.use_ema`, clears `ema_enabled` and calls
`ema_model.restore`, which writes the parameters saved by the last
`store` back into the live trainable parameters. -/
def disable_ema_for_inference (s : EmaSwapState) : EmaSwapState :=
  if !s.ema_enabled then s
  else if s.use_ema then
    { s with
      ema_enabled := false
      live := s.stored
      trace := s.trace ++ [EmaOp.restore] }
  else s

/-! ## The per-prompt generation loop of `Validation.validate_prompt`
(validation.py:1266-1496)

For one prompt, `validate_prompt` iterates over the configured
resolutions; each iteration gathers the prompt embeddings inside one
`try/except/continue` (validation.py:1340-1348) and then runs the pipeline
once per validation type inside a second `try/except/continue`
(validation.py:1350-1471).  Whether the embedding lookup or a pipeline
invocation raises is supplied by oracles `embedRaises` and `genRaises`;
resolutions are identified by their index.  Each successful pipeline
invocation is recorded as a `GenEvent` carrying the live trainable
parameter value in effect when it ran. -/

/-- A validation type, as produced by `_validation_types`
(validation.py:1253-1264). -/
inductive VType where
  | checkpoint
  | ema
deriving DecidableEq, Repr

/-- Embeds `_validation_types` (validation.py:1253-1264). -/
def validation_types (use_ema : Bool) (ema_validation : String) : List VType :=
  let types := [VType.checkpoint]
  if use_ema then
    let types := if ema_validation == "ema_only" then [VType.ema] else types
    if ema_validation == "comparison" then types ++ [VType.ema] else types
  else types

/-- One successful pipeline invocation: which resolution and validation
type it was for, and the live trainable parameter value at invocation
time. -/
structure GenEvent where
  resolution : Nat
  vtype : VType
  live : Int
deriving DecidableEq, Repr

/-- The inner `for current_validation_type in validation_types` loop
(validation.py:1413-1425) for resolution `res`: before an "ema" pass
`enable_ema_for_inference` is called, after it `disable_ema_for_inference`
is called; a raising pipeline invocation transfers control to the
`except` handler of the surrounding `try` (validation.py:1465-1471),
skipping the rest of the loop body — including the disable call.  Returns
the final EMA state, the recorded events, and whether an exception escaped
to the handler. -/
def run_validation_types (genRaises : Nat → VType → Bool) (res : Nat) :
    List VType → EmaSwapState → EmaSwapState × List GenEvent × Bool
  | [], s => (s, [], false)
  | t :: rest, s =>
    let s1 := if t = VType.ema then enable_ema_for_inference s else s
    if genRaises res t then
      (s1, [], true)
    else
      let ev : GenEvent := { resolution := res, vtype := t, live := s1.live }
      let s2 := if t = VType.ema then disable_ema_for_inference s1 else s1
      let rec_result := run_validation_types genRaises res rest s2
      (rec_result.1, ev :: rec_result.2.1, rec_result.2.2)

/-- The `for resolution in self.validation_resolutions` loop of
`validate_prompt` (validation.py:1277-1471).  A raising embedding lookup
is caught at validation.py:1342-1348 and `continue`s; a raising pipeline
invocation is caught at validation.py:1465-1471 and `continue`s.  Returns
the final EMA state, all recorded generation events, and the resolutions
whose iteration completed without an exception. -/
def validate_prompt_loop (embedRaises : Nat → Bool) (genRaises : Nat → VType → Bool)
    (types : List VType) :
    List Nat → EmaSwapState → EmaSwapState × List GenEvent × List Nat
  | [], s => (s, [], [])
  | r :: rs, s =>
    if embedRaises r then
      validate_prompt_loop embedRaises genRaises types rs s
    else
      let this_res := run_validation_types genRaises r types s
      let later := validate_prompt_loop embedRaises genRaises types rs this_res.1
      (later.1, this_res.2.1 ++ later.2.1,
        if this_res.2.2 then later.2.2 else r :: later.2.2)

/-! ## `Validation.setup_pipeline` retries and `run_validations`
(validation.py:919-963, 1016-1171)

Pipeline construction (validation.py:1116-1138) is a `while attempt < 3`
loop whose body increments `attempt`, tries one construction, `continue`s
on exception and `break`s on success.  The outcome of the construction
attempt numbered `n` (n = 1, 2, 3) is supplied by an oracle `c`:
`c n = some p` means the attempt produced pipeline object `p`, `c n =
none` means it raised (the exception is caught and logged in the loop).
After the loop — unconditionally — the source executes
`self.pipeline = self.pipeline.to(self.inference_device)`
(validation.py:1170), which raises `AttributeError` when `self.pipeline`
is still `None`. -/

/-- One pass over a list of attempt numbers: try each construction in
order, `break` (return) on the first success, fall through to the next on
an exception. -/
def construction_attempts (c : Nat → Option String) : List Nat → Option String
  | [] => none
  | n :: rest =>
    match c n with
    | some p => some p
    | none => construction_attempts c rest

/-- The `while attempt < 3` construction-retry loop
(validation.py:1116-1138): `attempt` starts at 0 and is incremented at the
top of the body, so the attempts executed are exactly those numbered 1, 2,
3.  Returns the constructed pipeline, or `none` when every attempt
raised. -/
def construction_retry (c : Nat → Option String) : Option String :=
  construction_attempts c [1, 2, 3]

/-- Embeds `setup_pipeline` (validation.py:1016-1171) with
`validation_torch_compile` off: when `self.pipeline` is `None` it runs the
construction-retry loop, then unconditionally moves the pipeline to the
inference device (validation.py:1170), which raises `AttributeError` when
the pipeline is still `None`. -/
def setup_pipeline (c : Nat → Option String) (pipeline0 : Option String) :
    Except String (Option String) :=
  let pipeline := match pipeline0 with
    | none => construction_retry c
    | some p => some p
  match pipeline with
  | none => Except.error "AttributeError: NoneType object has no attribute to"
  | some p => Except.ok (some p)

/-- Embeds the main-process branch of `run_validations`
(validation.py:945-963): `setup_pipeline` is called with no surrounding
`try/except`, so an exception it raises propagates to the caller — the
training loop.  The guard at validation.py:949-954 (log an error and
return when `self.pipeline` is `None`) is modelled by the `ok none`
branch.  Returns `ok true` when validation proceeds, `ok false` when the
cycle degrades gracefully. -/
def run_validations (c : Nat → Option String) (pipeline0 : Option String) :
    Except String Bool :=
  match setup_pipeline c pipeline0 with
  | Except.error e => Except.error e
  | Except.ok none => Except.ok false
  | Except.ok (some _) => Except.ok true

/-! ## Claim theorems -/

/-- Claim C1 (code bug): when the pipeline is initially unset and every
construction attempt raises, `setup_pipeline` does not return with the
pipeline left `None` — the unconditional
`self.pipeline = self.pipeline.to(...)` at validation.py:1170 raises
`AttributeError`, and `run_validations` propagates it to the training
loop instead of logging and returning. -/
theorem C1_pipeline_failure_crashes_run_validations :
    run_validations (fun _ => none) none
      = Except.error "AttributeError: NoneType object has no attribute to" ∧
    setup_pipeline (fun _ => none) none
      = Except.error "AttributeError: NoneType object has no attribute to" := by
  constructor <;> rfl

/-- Claim C5 counterexample: `parse_validation_resolution` applied to the
string `"512"` returns the string unchanged as both tuple components, not
the integer pair `(512, 512)`. -/
theorem C5_resolution_parsing_counterexample :
    parse_validation_resolution "legacy" (PyVal.str "512")
        = Except.ok (some (PyVal.str "512", PyVal.str "512")) ∧
    Except.ok (some (PyVal.str "512", PyVal.str "512"))
      ≠ (Except.ok (some (PyVal.int 512, PyVal.int 512)) :
          Except String (Option (PyVal × PyVal))) := by
  constructor
  · rfl
  · decide

/-- Claim C5 (amended): `parse_validation_resolution` maps the string
`"512"` to `("512", "512")` (the input unchanged as both components) and
`"768x512"` to the integer pair `(768, 512)`; `get_validation_resolutions`
maps `"512,768x512"` to `[("512","512"), (768, 512)]`; and `"128"` under a
model type containing `"deepfloyd-stage2"` raises a `ValueError`. -/
theorem C5_resolution_parsing_amended :
    parse_validation_resolution "legacy" (PyVal.str "512")
        = Except.ok (some (PyVal.str "512", PyVal.str "512")) ∧
    parse_validation_resolution "legacy" (PyVal.str "768x512")
        = Except.ok (some (PyVal.int 768, PyVal.int 512)) ∧
    get_validation_resolutions "legacy" (PyVal.str "512,768x512")
        = Except.ok [some (PyVal.str "512", PyVal.str "512"),
                     some (PyVal.int 768, PyVal.int 512)] ∧
    parse_validation_resolution "deepfloyd-stage2" (PyVal.str "128")
        = Except.error
            "ValueError: Cannot use less than 256 resolution for DeepFloyd stage 2." := by
  refine ⟨rfl, rfl, rfl, rfl⟩

/-- Claim C7 counterexample: the EMA swap-in does have an internal
reentrancy guard — starting from a state with `use_ema` set and EMA not
yet enabled, a second consecutive `enable_ema_for_inference` leaves the
state (including the trace of `store`/`copy_to` calls) exactly as after
the first call, so the store/copy-to side effects are not performed a
second time. -/
theorem C7_reentrancy_counterexample :
    enable_ema_for_inference (enable_ema_for_inference
        { live := 10, stored := 0, ema := 99, ema_enabled := false,
          use_ema := true, trace := [] })
      = enable_ema_for_inference
        { live := 10, stored := 0, ema := 99, ema_enabled := false,
          use_ema := true, trace := [] } ∧
    (enable_ema_for_inference
        { live := 10, stored := 0, ema := 99, ema_enabled := false,
          use_ema := true, trace := [] }).trace = [EmaOp.store, EmaOp.copy_to] := by
  constructor <;> decide

/-- Claim C7 (amended): `enable_ema_for_inference` is idempotent — the
`ema_enabled` guard at validation.py:1619-1621 makes a second consecutive
swap-in return early, performing no additional store/copy-to side
effects. -/
theorem C7_enable_ema_idempotent (s : EmaSwapState) :
    enable_ema_for_inference (enable_ema_for_inference s) = enable_ema_for_inference s := by
  unfold enable_ema_for_inference
  by_cases h1 : s.ema_enabled <;> by_cases h2 : s.use_ema <;> simp [h1, h2]

/-- Claim C6: with `use_ema` configured and EMA not enabled, calling
`enable_ema_for_inference` followed by `disable_ema_for_inference` leaves
the live trainable parameters identical to their pre-swap values and
leaves `ema_enabled` false (given the store/copy-to/restore contract:
`restore` writes back the parameters saved by the last `store`). -/
theorem C6_ema_swap_symmetry (s : EmaSwapState) (h1 : s.use_ema = true)
    (h2 : s.ema_enabled = false) :
    (disable_ema_for_inference (enable_ema_for_inference s)).live = s.live ∧
    (disable_ema_for_inference (enable_ema_for_inference s)).ema_enabled = false := by
  simp [enable_ema_for_inference, disable_ema_for_inference, h1, h2]

/-- Claim C6 witness: the swap symmetry at a concrete state. -/
theorem C6_ema_swap_symmetry_witness :
    (disable_ema_for_inference (enable_ema_for_inference
        { live := 10, stored := 0, ema := 99, ema_enabled := false,
          use_ema := true, trace := [] })).live = 10 ∧
    (disable_ema_for_inference (enable_ema_for_inference
        { live := 10, stored := 0, ema := 99, ema_enabled := false,
          use_ema := true, trace := [] })).ema_enabled = false :=
  C6_ema_swap_symmetry
    { live := 10, stored := 0, ema := 99, ema_enabled := false,
      use_ema := true, trace := [] } rfl rfl

/-- Claim C2: with a non-empty prompt list, `validation_steps = 100`,
`gradient_accumulation_steps = 1`, `global_resume_step = 1` and the
calling process being the main process, `should_perform_validation`
returns true at every `global_step = 100·k` (k ≥ 1), returns false at
`global_step = 150`, and returns true unconditionally when
`validation_type = "final"`. -/
theorem C2_validation_cadence (s : ValidationState) (step : Nat)
    (hprompts : s.validation_prompts ≠ [])
    (hsteps : s.validation_steps = 100)
    (hga : s.gradient_accumulation_steps = 1)
    (hresume : s.global_resume_step = 1)
    (hmain : s.is_main_process = true) :
    (∀ k : Nat, 1 ≤ k →
      should_perform_validation { s with global_step := 100 * k } step "intermediary"
        = Except.ok true) ∧
    should_perform_validation { s with global_step := 150 } step "intermediary"
      = Except.ok false ∧
    ∀ g : Nat,
      should_perform_validation { s with global_step := g } step "final"
        = Except.ok true := by
  refine ⟨?_, ?_, ?_⟩
  · intro k hk
    have hgt : 100 * k > 1 := by omega
    simp [should_perform_validation, is_final_validation,
      should_do_intermediary_validation, hprompts, hsteps, hga, hresume, hmain,
      Nat.mul_mod_right, hgt, hmain, Nat.mod_one]
  · simp [should_perform_validation, is_final_validation,
      should_do_intermediary_validation, hprompts, hsteps, hga, hresume, hmain]
  · intro g
    simp [should_perform_validation, is_final_validation, hmain]

/-- Claim C2 witness: the cadence at a concrete state — true at
global_step 200, false at 150, true for a final validation. -/
theorem C2_validation_cadence_witness :
    should_perform_validation
      { validation_prompts := ["a photo"], validation_steps := 100,
        gradient_accumulation_steps := 1, global_step := 100 * 2,
        global_resume_step := 1, is_main_process := true, deepspeed := false }
      7 "intermediary" = Except.ok true ∧
    should_perform_validation
      { validation_prompts := ["a photo"], validation_steps := 100,
        gradient_accumulation_steps := 1, global_step := 150,
        global_resume_step := 1, is_main_process := true, deepspeed := false }
      7 "intermediary" = Except.ok false :=
  ⟨(C2_validation_cadence
      { validation_prompts := ["a photo"], validation_steps := 100,
        gradient_accumulation_steps := 1, global_step := 0,
        global_resume_step := 1, is_main_process := true, deepspeed := false }
      7 (by decide) rfl rfl rfl rfl).1 2 (by decide),
   (C2_validation_cadence
      { validation_prompts := ["a photo"], validation_steps := 100,
        gradient_accumulation_steps := 1, global_step := 0,
        global_resume_step := 1, is_main_process := true, deepspeed := false }
      7 (by decide) rfl rfl rfl rfl).2.1⟩

/-- Claim C3: a dual-stream block at index `i` is gradient-checkpointed
exactly when the model is training and checkpointing is enabled and the
interval is unset or divides `i`; a merged-stream block at index `i` is
checkpointed exactly when training-and-checkpointing holds on its own, or
the interval is set and divides `i` — the asymmetry produced by Python
operator precedence at transformer.py:579-586 and 626-633. -/
theorem C3_checkpointing_conditions (training gradient_checkpointing : Bool)
    (interval : Option Nat) (i : Nat) :
    (dualStreamBlockExec training gradient_checkpointing interval i
        = BlockExec.checkpointed ↔
      (training = true ∧ gradient_checkpointing = true ∧
        (interval = none ∨ ∃ k, interval = some k ∧ i % k = 0))) ∧
    (singleStreamBlockExec training gradient_checkpointing interval i
        = BlockExec.checkpointed ↔
      ((training = true ∧ gradient_checkpointing = true) ∨
        (∃ k, interval = some k ∧ i % k = 0))) := by
  cases interval with
  | none =>
      constructor
      · simp [dualStreamBlockExec]
      · simp [singleStreamBlockExec]
  | some k =>
      constructor
      · by_cases hk : i % k = 0 <;>
          simp [dualStreamBlockExec, hk]
      · by_cases hk : i % k = 0 <;>
          simp [singleStreamBlockExec, hk]

/-- Claim C9: on a process that is not the accelerator main process (and
with positive step divisors, so that the Python modulo operations do not
themselves raise), `should_perform_validation` raises `AttributeError`
whenever its left conjunct — final validation or the intermediary cadence
condition — is true, because it then reads the never-assigned attribute
`deepseed`; when the left conjunct is false, short-circuiting returns
false without an error. -/
theorem C9_deepseed_attribute_error (s : ValidationState) (step : Nat)
    (validation_type : String)
    (hmain : s.is_main_process = false)
    (_hsteps : 0 < s.validation_steps)
    (_hga : 0 < s.gradient_accumulation_steps) :
    ((is_final_validation validation_type ||
        should_do_intermediary_validation s step) = true →
      should_perform_validation s step validation_type
        = Except.error "AttributeError: Validation object has no attribute deepseed") ∧
    ((is_final_validation validation_type ||
        should_do_intermediary_validation s step) = false →
      should_perform_validation s step validation_type = Except.ok false) := by
  constructor
  · intro h
    simp [should_perform_validation, h, hmain, read_deepseed]
  · intro h
    simp [should_perform_validation, h]

/-- Claim C9 witness: a non-main process with a final validation raises
the `deepseed` `AttributeError`; with the cadence unmet it returns
false. -/
theorem C9_deepseed_attribute_error_witness :
    should_perform_validation
      { validation_prompts := ["a photo"], validation_steps := 100,
        gradient_accumulation_steps := 1, global_step := 150,
        global_resume_step := 1, is_main_process := false, deepspeed := true }
      7 "final"
      = Except.error "AttributeError: Validation object has no attribute deepseed" ∧
    should_perform_validation
      { validation_prompts := ["a photo"], validation_steps := 100,
        gradient_accumulation_steps := 1, global_step := 150,
        global_resume_step := 1, is_main_process := false, deepspeed := true }
      7 "intermediary"
      = Except.ok false :=
  ⟨(C9_deepseed_attribute_error
      { validation_prompts := ["a photo"], validation_steps := 100,
        gradient_accumulation_steps := 1, global_step := 150,
        global_resume_step := 1, is_main_process := false, deepspeed := true }
      7 "final" rfl (by decide) (by decide)).1 (by decide),
   (C9_deepseed_attribute_error
      { validation_prompts := ["a photo"], validation_steps := 100,
        gradient_accumulation_steps := 1, global_step := 150,
        global_resume_step := 1, is_main_process := false, deepspeed := true }
      7 "intermediary" rfl (by decide) (by decide)).2 (by decide)⟩

/-- Claim C4: for a batch of `b` hidden-state rows of sequence length `L`
and an attention mask of `b` rows of length `m ≤ L`,
`expand_flux_attention_mask` succeeds and returns `b` rows of length `L`
that agree with the input mask on the first `m` columns and are uniformly
`1` on the remaining columns. -/
theorem C4_mask_expansion (b L m : Nat) (mask : List (List Int))
    (hb : mask.length = b)
    (hrows : ∀ row ∈ mask, row.length = m)
    (hmL : m ≤ L) :
    ∃ out, expand_flux_attention_mask b L mask = some out ∧
      out.length = b ∧
      ∀ i : Nat, i < b →
        ∃ row orow, mask[i]? = some row ∧ out[i]? = some orow ∧
          orow.length = L ∧
          (∀ j : Nat, j < m → orow[j]? = row[j]?) ∧
          (∀ j : Nat, m ≤ j → j < L → orow[j]? = some 1) := by
  refine ⟨mask.map (fun row => row ++ List.replicate (L - row.length) 1), ?_, ?_, ?_⟩
  · simp [expand_flux_attention_mask, hb]
  · simp [hb]
  · intro i hi
    have hi' : i < mask.length := by omega
    have hmem : mask[i] ∈ mask := List.getElem_mem hi'
    have hlen : (mask[i]).length = m := hrows _ hmem
    refine ⟨mask[i], mask[i] ++ List.replicate (L - (mask[i]).length) 1,
      List.getElem?_eq_getElem hi', ?_, ?_, ?_, ?_⟩
    · rw [List.getElem?_map, List.getElem?_eq_getElem hi']
      rfl
    · simp [hlen]
      omega
    · intro j hj
      have : j < (mask[i]).length := by omega
      simp [List.getElem?_append, this]
    · intro j hjm hjL
      have hge : (mask[i]).length ≤ j := by omega
      rw [List.getElem?_append, if_neg (by omega)]
      have : j - (mask[i]).length < L - (mask[i]).length := by omega
      simp [List.getElem?_replicate, this]

/-- Claim C4 witness: the expansion law at a concrete batch — two mask
rows of length 3 expanded to sequence length 5. -/
theorem C4_mask_expansion_witness :
    ∃ out, expand_flux_attention_mask 2 5 [[1, 0, 1], [0, 0, 1]] = some out ∧
      out.length = 2 ∧
      ∀ i : Nat, i < 2 →
        ∃ row orow, [[(1:Int), 0, 1], [0, 0, 1]][i]? = some row ∧ out[i]? = some orow ∧
          orow.length = 5 ∧
          (∀ j : Nat, j < 3 → orow[j]? = row[j]?) ∧
          (∀ j : Nat, 3 ≤ j → j < 5 → orow[j]? = some 1) :=
  C4_mask_expansion 2 5 3 [[1, 0, 1], [0, 0, 1]] (by decide) (by decide) (by decide)

/-- Helper: the `aborted` flag of the inner validation-type loop is set
exactly when some pipeline invocation for this resolution raises. -/
theorem run_validation_types_aborted (g : Nat → VType → Bool) (r : Nat) :
    ∀ (ts : List VType) (s : EmaSwapState),
      (run_validation_types g r ts s).2.2 = !(ts.all fun t => !g r t) := by
  intro ts
  induction ts with
  | nil => intro s; simp [run_validation_types]
  | cons t rest ih =>
    intro s
    by_cases h : g r t
    · simp [run_validation_types, h]
    · simp [run_validation_types, h, ih]

/-- Claim C8: in the per-prompt loop of `validate_prompt`, a failing
embedding lookup or a failing pipeline invocation only removes its own
item — the iterations that complete are exactly those whose embedding
lookup and pipeline invocations all succeed, regardless of failures at
any other item, so one bad item never blocks the rest of the cycle. -/
theorem C8_per_item_isolation (embedRaises : Nat → Bool)
    (genRaises : Nat → VType → Bool) (types : List VType) :
    ∀ (resolutions : List Nat) (s : EmaSwapState),
      (validate_prompt_loop embedRaises genRaises types resolutions s).2.2
        = resolutions.filter
            (fun r => !embedRaises r && types.all fun t => !genRaises r t)
  := by
  intro resolutions
  induction resolutions with
  | nil => intro s; simp [validate_prompt_loop]
  | cons r rs ih =>
    intro s
    by_cases he : embedRaises r
    · simp [validate_prompt_loop, he, ih]
    · by_cases hg : types.all fun t => !genRaises r t
      · simp [validate_prompt_loop, he, hg, List.filter_cons,
          run_validation_types_aborted, ih]
      · simp [validate_prompt_loop, he, hg, List.filter_cons,
          run_validation_types_aborted, ih]

/-- Claim C10: with EMA comparison validation configured, when the
pipeline invocation of the "ema" pass raises at one resolution, the
exception handler continues to the next resolution without calling
`disable_ema_for_inference`: after that iteration `ema_enabled` is still
true, and the subsequent "checkpoint" pass of the next resolution runs
with the EMA shadow weights still swapped into the live trainable
parameters. -/
theorem C10_ema_error_path (e : Nat → Bool) (g : Nat → VType → Bool)
    (s : EmaSwapState) (r0 r1 : Nat)
    (hema : s.use_ema = true) (hen : s.ema_enabled = false)
    (he0 : e r0 = false) (hg0c : g r0 VType.checkpoint = false)
    (hg0e : g r0 VType.ema = true)
    (he1 : e r1 = false) (hg1c : g r1 VType.checkpoint = false)
    (hg1e : g r1 VType.ema = false) :
    (validate_prompt_loop e g (validation_types true "comparison") [r0] s).1.ema_enabled
        = true ∧
    (validate_prompt_loop e g (validation_types true "comparison") [r0, r1] s).2.1 =
      [{ resolution := r0, vtype := VType.checkpoint, live := s.live },
       { resolution := r1, vtype := VType.checkpoint, live := s.ema },
       { resolution := r1, vtype := VType.ema, live := s.ema }] := by
  have ht : validation_types true "comparison" = [VType.checkpoint, VType.ema] := by decide
  rw [ht]
  constructor <;>
    simp [validate_prompt_loop, run_validation_types,
      enable_ema_for_inference, disable_ema_for_inference,
      he0, hg0c, hg0e, he1, hg1c, hg1e, hema, hen]

/-- Claim C10 witness: the error path at a concrete state — the "ema"
pass raises at resolution 0, and resolution 1's "checkpoint" pass then
runs with the EMA weights (99) instead of the live weights (10). -/
theorem C10_ema_error_path_witness :
    (validate_prompt_loop (fun _ => false) (fun r t => r == 0 && t == VType.ema)
        (validation_types true "comparison") [0]
        { live := 10, stored := 0, ema := 99, ema_enabled := false,
          use_ema := true, trace := [] }).1.ema_enabled = true ∧
    (validate_prompt_loop (fun _ => false) (fun r t => r == 0 && t == VType.ema)
        (validation_types true "comparison") [0, 1]
        { live := 10, stored := 0, ema := 99, ema_enabled := false,
          use_ema := true, trace := [] }).2.1 =
      [{ resolution := 0, vtype := VType.checkpoint, live := 10 },
       { resolution := 1, vtype := VType.checkpoint, live := 99 },
       { resolution := 1, vtype := VType.ema, live := 99 }] :=
  C10_ema_error_path (fun _ => false) (fun r t => r == 0 && t == VType.ema)
    { live := 10, stored := 0, ema := 99, ema_enabled := false,
      use_ema := true, trace := [] }
    0 1 rfl rfl rfl rfl rfl rfl rfl rfl
